import Mathlib

/-!
Verification of the pifmrds-streamer core (supervisor loop, session runner,
control channel, metadata sources) against its natural-language specification.

The Python source in `src/src/gstreamer.py` and `src/app.py` is shallowly
embedded: text is modelled as `List Char`, Python `None` as `Option`,
exceptions as `Except`, mutable single-cells as explicit state, and the
side-effecting handlers as state-passing functions that also return the list
of control messages they emit.
-/

/-! ## Text sanitizers (`safe_ps`, `safe_rt` in gstreamer.py / app.py) -/

/-- Characters Python `str.strip()` removes (ASCII whitespace). -/
def isPySpace (c : Char) : Bool :=
  c = ' ' || c = '\t' || c = '\n' || c = '\r' || c = Char.ofNat 11 || c = Char.ofNat 12

/-- Python `str.strip()` on a character list. -/
def pyStrip (l : List Char) : List Char :=
  ((l.dropWhile isPySpace).reverse.dropWhile isPySpace).reverse

/-- Python `str.rstrip()` on a character list. -/
def pyRstrip (l : List Char) : List Char :=
  (l.reverse.dropWhile isPySpace).reverse

/-- The character class `[0-9A-Za-z ]` of the PS sanitizer's regex. -/
def psAllowed (c : Char) : Bool :=
  ('0' ≤ c && c ≤ '9') || ('A' ≤ c && c ≤ 'Z') || ('a' ≤ c && c ≤ 'z') || c = ' '

/-- `DEFAULT_PS = "DanceUK"` from gstreamer.py. -/
def DEFAULT_PS : List Char := "DanceUK".toList

/-- `DEFAULT_RT = "Streaming"` from gstreamer.py. -/
def DEFAULT_RT : List Char := "Streaming".toList

/-- Embedding of `safe_ps`:
`t = re.sub(r"[^0-9A-Za-z ]+", "", text or "").strip(); return (t or DEFAULT_PS)[:8]`. -/
def safe_ps (text : List Char) : List Char :=
  (if pyStrip (text.filter psAllowed) = [] then DEFAULT_PS
   else pyStrip (text.filter psAllowed)).take 8

/-- Embedding of `safe_rt`:
`t = (text or "").strip(); return (t or " ")[:64]`. -/
def safe_rt (text : List Char) : List Char :=
  (if pyStrip text = [] then [' '] else pyStrip text).take 64

/-! ## Control-channel FIFO lifecycle (`ensure_fifo` in gstreamer.py) -/

/-- What occupies the FIFO path: nothing, a named pipe, or a non-pipe node. -/
inductive PathState
  | absent
  | fifo
  | other
deriving DecidableEq

/-- `os.path.exists(path)`. -/
def fs_exists : PathState → Bool
  | .absent => false
  | _ => true

/-- `stat.S_ISFIFO(os.stat(path).st_mode)`. -/
def fs_isFifo : PathState → Bool
  | .fifo => true
  | _ => false

/-- Embedding of `ensure_fifo`: remove a non-pipe node if present, then
`mkfifo` if nothing is present. -/
def ensure_fifo (s : PathState) : PathState :=
  let s1 := if fs_exists s && !fs_isFifo s then PathState.absent else s
  if !fs_exists s1 then PathState.fifo else s1

/-! ## Single-assignment restart cause (`request_restart` in `_run_once`,
and `RadioController._request_restart`) -/

/-- Embedding of the cause-recording step of `request_restart` /
`_request_restart`: the `restart_reason` cell is written only when it is
still `None`. (The subsequent `loop.quit()` does not touch the cell.) -/
def request_restart (cell : Option String) (reason : String) : Option String :=
  match cell with
  | none => some reason
  | some r => some r

/-- A whole attempt's sequence of `request_restart` calls, applied in order
to the cause cell. -/
def record_causes (cell : Option String) (causes : List String) : Option String :=
  causes.foldl request_restart cell

/-! ## Control-channel writer (`RadioController._ctl_send`) -/

/-- Per-run controller state visible to `_ctl_send`: the fields of
`_RunHandle` it can read plus the observable effects (successful writes,
log lines). -/
structure CtlState where
  ctl_fd : Option Nat
  restart_reason : Option String
  stop_set : Bool
  written : List (List Char)
  logged : List String
deriving DecidableEq

/-- Whether the underlying `os.write` succeeds or raises `OSError`. -/
inductive WriteOutcome
  | ok
  | osError
deriving DecidableEq

/-- `os.write(fd, data)` as a fallible operation. -/
def os_write (outcome : WriteOutcome) (data : List Char) : Except String (List Char) :=
  match outcome with
  | .ok => Except.ok data
  | .osError => Except.error "OSError"

/-- Embedding of `_ctl_send`: return immediately when `ctl_fd` is `None`;
otherwise write `line.rstrip() + "\n"`, catching `OSError` and logging it. -/
def ctl_send (st : CtlState) (line : List Char) (outcome : WriteOutcome) :
    Except String CtlState :=
  match st.ctl_fd with
  | none => Except.ok st
  | some fd =>
    match os_write outcome (pyRstrip line ++ ['\n']) with
    | Except.ok data =>
      let _ := fd
      Except.ok { st with written := st.written ++ [data] }
    | Except.error _ =>
      Except.ok { st with logged := st.logged ++ ["RDS ctl write failed"] }

/-! ## Metadata Source, Variant B (the `on_message` TAG handler in
`_run_once`) -/

/-- A control message put on the RDS FIFO: `PS <text>` or `RT <text>`. -/
inductive CtlMsg
  | PS (text : List Char)
  | RT (text : List Char)
deriving DecidableEq

/-- One TAG bus message, as seen through `taglist.get_string`: the `"title"`
and `"organization"` string values when present. -/
structure TagEvent where
  title : Option (List Char)
  org : Option (List Char)
deriving DecidableEq

/-- The handler's cached last-seen values (`last_title`, `last_org`,
closure-local in `_run_once`). -/
structure TagState where
  last_title : Option (List Char)
  last_org : Option (List Char)
deriving DecidableEq

/-- Embedding of the `Gst.MessageType.TAG` branch of `on_message`: emit
`RT safe_rt(title)` when a non-empty title differs from `last_title`, then
emit `PS safe_ps(org)` when a non-empty organization differs from
`last_org`; returns the new cached state and the messages sent. -/
def on_message_tag (st : TagState) (ev : TagEvent) : TagState × List CtlMsg :=
  let step1 : TagState × List CtlMsg :=
    match ev.title with
    | some t =>
      if t ≠ [] ∧ st.last_title ≠ some t then
        ({ st with last_title := some t }, [CtlMsg.RT (safe_rt t)])
      else (st, [])
    | none => (st, [])
  let step2 : TagState × List CtlMsg :=
    match ev.org with
    | some o =>
      if o ≠ [] ∧ step1.1.last_org ≠ some o then
        ({ step1.1 with last_org := some o }, [CtlMsg.PS (safe_ps o)])
      else (step1.1, [])
    | none => (step1.1, [])
  (step2.1, step1.2 ++ step2.2)

/-! ## Session runner (`RadioController._run_once`) -/

/-- The inputs that decide one attempt's outcome: whether the appsink stage
is found, whether the pipeline reaches PLAYING, the `request_restart`
causes raised while the event loop runs (in firing order), and whether the
external stop event is set by teardown time. -/
structure RunConfig where
  appsink_found : Bool
  play_ok : Bool
  causes : List String
  stop_set : Bool

/-- Embedding of `_run_once`'s control flow around the event loop: raise at
Starting when the appsink is missing or the pipeline cannot reach PLAYING;
otherwise run the loop (recording the first cause), then after cleanup
raise `"stopped"` when the stop event is set, else the recorded cause,
else `"exited without explicit reason"`. A `RestartReason` raise is an
`Except.error`. -/
def run_once (cfg : RunConfig) : Except String Unit :=
  if cfg.appsink_found = false then Except.error "appsink element not found"
  else if cfg.play_ok = false then Except.error "failed to set pipeline to PLAYING"
  else if cfg.stop_set then Except.error "stopped"
  else
    match record_causes none cfg.causes with
    | some r => Except.error r
    | none => Except.error "exited without explicit reason"

/-- An attempt that reaches the Streaming phase (does not fail at
Starting): the appsink is found and the pipeline reaches PLAYING. -/
def reaches_streaming (cfg : RunConfig) : Bool :=
  cfg.appsink_found && cfg.play_ok

/-! ## Supervisor loop (`RadioController._run_forever`) -/

/-- Embedding of `_run_forever`'s sleep behaviour: given the attempts it
will execute and the current `backoff`, return the list of `time.sleep`
durations (in seconds; the float arithmetic `1.0, 2.0, ...,
min(15.0, b*2)` is exact on these integers).

Mirrors the loop body: on a normal return of `_run_once`, `backoff = 1.0`
then sleep and double; on a `RestartReason`, break without sleeping when
the stop event is set, else sleep `backoff` and double with cap 15. -/
def run_forever_sleeps : List RunConfig → Nat → List Nat
  | [], _ => []
  | cfg :: rest, b =>
    match run_once cfg with
    | Except.ok _ => 1 :: run_forever_sleeps rest (min 15 (1 * 2))
    | Except.error _ =>
      if cfg.stop_set then []
      else b :: run_forever_sleeps rest (min 15 (b * 2))

/-! ## Metadata Source, Variant A (ICY in-band framing) -/

/-- The apostrophe / single-quote character used by ICY metadata. -/
def quoteChar : Char := Char.ofNat 39

/-- Lowercased form of the ICY title key, `streamtitle=` followed by a
single quote (for the case-insensitive match). -/
def streamTitleKey : List Char := "streamtitle=".toList ++ [quoteChar]

/-- Case-fold a decoded metadata block for the case-insensitive search. -/
def toLowerList (l : List Char) : List Char := l.map Char.toLower

/-- Modelled from the spec: no ICY-framing source file exists under `src/`;
spec section 4.2 describes extracting "a quoted title via a
case-insensitive StreamTitle='...' match". Scans the decoded metadata
block for the key (case-insensitively) and returns the characters up to
the closing quote. -/
def extractStreamTitle : List Char → Option (List Char)
  | [] => none
  | c :: rest =>
    if streamTitleKey.isPrefixOf (toLowerList (c :: rest)) then
      some (((c :: rest).drop streamTitleKey.length).takeWhile (fun ch => ch ≠ quoteChar))
    else extractStreamTitle rest

/-- The Variant A source's state: last emitted title and the RT updates
emitted so far. -/
structure IcyState where
  last_title : Option (List Char)
  emitted : List (List Char)
deriving DecidableEq

/-- Modelled from the spec: processing one decoded metadata block — "If a
non-empty title differs from the last emitted one, emit an RT update and
remember it (dedup is mandatory)". -/
def icy_meta_step (st : IcyState) (meta : List Char) : IcyState :=
  match extractStreamTitle meta with
  | some t =>
    if t ≠ [] ∧ st.last_title ≠ some t then
      { last_title := some t, emitted := st.emitted ++ [t] }
    else st
  | none => st

/-- Modelled from the spec: the Variant A read loop (no ICY source file
exists under `src/`; spec section 4.2): "while not stopped: read exactly N
audio bytes; read 1 length byte L; if L = 0, continue; else read L*16
bytes and decode as best-effort text" then extract/dedup/emit. Bytes are
modelled as `Char`; a short read ends the loop silently; `fuel` bounds the
iterations (the loop also ends on external stop). -/
def icy_loop (fuel : Nat) (metaint : Nat) (stream : List Char) (st : IcyState) : IcyState :=
  match fuel with
  | 0 => st
  | Nat.succ fuel' =>
    if stream.length < metaint then st
    else
      match stream.drop metaint with
      | [] => st
      | lenByte :: rest =>
        let L := lenByte.toNat
        if L = 0 then icy_loop fuel' metaint rest st
        else if rest.length < L * 16 then st
        else icy_loop fuel' metaint (rest.drop (L * 16)) (icy_meta_step st (rest.take (L * 16)))

/-- The title `Song A` of the spec's synthetic-stream test. -/
def songATitle : List Char := "Song A".toList

/-- One ICY metadata block encoding `StreamTitle='Song A';`, NUL-padded to
L*16 = 32 bytes (length byte L = 2). -/
def metaBlockA : List Char :=
  "StreamTitle=".toList ++ [quoteChar] ++ songATitle ++ [quoteChar, ';'] ++
    List.replicate 11 (Char.ofNat 0)

/-- 100 bytes of audio for the synthetic stream (metaint = 100). -/
def audio100 : List Char := List.replicate 100 'a'

/-- The spec's synthetic stream: two frames, each 100 audio bytes, the
length byte 2, and an identical `StreamTitle='Song A';` block, then
trailing audio. -/
def icyStreamA : List Char :=
  audio100 ++ [Char.ofNat 2] ++ metaBlockA ++
    audio100 ++ [Char.ofNat 2] ++ metaBlockA ++ audio100

/-- The Variant A source's initial state: nothing emitted yet. -/
def icyInit : IcyState := { last_title := none, emitted := [] }

/-- A full-natural-course attempt: the appsink is found, the pipeline
reaches PLAYING, the event loop runs until pipeline end-of-stream, the
stop event is never set. -/
def fullCourseEos : RunConfig :=
  { appsink_found := true, play_ok := true, causes := ["gstreamer eos"], stop_set := false }

set_option maxRecDepth 40000

/-! ## Helper lemmas -/

theorem record_causes_some (c : String) : ∀ l : List String, record_causes (some c) l = some c
  | [] => rfl
  | x :: xs => by
    show record_causes (request_restart (some c) x) xs = some c
    exact record_causes_some c xs

theorem record_causes_none : ∀ causes : List String, record_causes none causes = causes.head?
  | [] => rfl
  | c :: cs => by
    show record_causes (request_restart none c) cs = some c
    exact record_causes_some c cs

theorem run_once_isError (cfg : RunConfig) : ∃ r, run_once cfg = Except.error r := by
  unfold run_once
  split
  · exact ⟨_, rfl⟩
  · split
    · exact ⟨_, rfl⟩
    · split
      · exact ⟨_, rfl⟩
      · split
        · exact ⟨_, rfl⟩
        · exact ⟨_, rfl⟩

theorem backoff_cap (k : Nat) :
    min 15 (min 15 (2 ^ k) * 2) = min 15 (2 ^ (k + 1)) := by
  have h : 2 ^ (k + 1) = 2 ^ k * 2 := pow_succ 2 k
  omega

theorem sleeps_general : ∀ (cfgs : List RunConfig) (k : Nat),
    (∀ cfg ∈ cfgs, cfg.stop_set = false) →
    run_forever_sleeps cfgs (min 15 (2 ^ k)) =
      (List.range cfgs.length).map (fun i => min 15 (2 ^ (k + i)))
  | [], _, _ => by simp [run_forever_sleeps]
  | cfg :: rest, k, h => by
    obtain ⟨r, hr⟩ := run_once_isError cfg
    have hstop : cfg.stop_set = false := h cfg (by simp)
    have hrest : ∀ c ∈ rest, c.stop_set = false := fun c hc => h c (by simp [hc])
    rw [run_forever_sleeps, hr, hstop]
    simp only [Bool.false_eq_true, if_false]
    rw [backoff_cap, sleeps_general rest (k + 1) hrest]
    rw [List.length_cons, List.range_succ_eq_map, List.map_cons, List.map_map]
    refine congrArg₂ _ (by rw [Nat.add_zero]) ?_
    exact List.map_congr_left fun i _ => by
      simp only [Function.comp]
      rw [show k + 1 + i = k + (i + 1) by omega]

/-! ## Claim theorems -/

/-- Claim C1: the recorded RestartCause is single-assignment — starting
from an empty cell, a sequence of `request_restart` calls leaves exactly
the first cause in the cell; once a cause is recorded, any later
`request_restart` call (or sequence of calls) leaves it unchanged. -/
theorem c1_restart_cause_single_assignment (causes later : List String) (r c : String) :
    record_causes none causes = causes.head? ∧
    request_restart (some c) r = some c ∧
    record_causes (some c) later = some c :=
  ⟨record_causes_none causes, rfl, record_causes_some c later⟩

/-- Claim C2 (counterexample): an attempt that runs its full natural
course — it passes Starting (`reaches_streaming`) and ends with the
streaming-phase cause `"gstreamer eos"` — does not reset the backoff: two
such consecutive attempts sleep `[1, 2]`, not the `[1, 1]` the claimed
reset would give, because `_run_once` always raises and the
`backoff = 1.0` reset line never executes. -/
theorem c2_backoff_reset_counterexample :
    reaches_streaming fullCourseEos = true ∧
    run_once fullCourseEos = Except.error "gstreamer eos" ∧
    run_forever_sleeps [fullCourseEos, fullCourseEos] 1 = [1, 2] ∧
    run_forever_sleeps [fullCourseEos, fullCourseEos] 1 ≠ [1, 1] :=
  ⟨rfl, rfl, rfl, by decide⟩

/-- Claim C2 (amended): across consecutive failing attempts the supervisor
sleeps 1s, 2s, 4s, 8s, 15s, 15s, … (`min 15 (2 ^ i)` for the i-th
attempt; capped at 15, never decreasing); the backoff never resets
because every attempt ends by raising a RestartCause. -/
theorem c2_backoff_sequence (cfgs : List RunConfig)
    (h : ∀ cfg ∈ cfgs, cfg.stop_set = false) :
    run_forever_sleeps cfgs 1 = (List.range cfgs.length).map (fun i => min 15 (2 ^ i)) := by
  have hg := sleeps_general cfgs 0 h
  simpa using hg

/-- Witness for the amended C2 at a concrete run of six failing attempts:
the sleep sequence is exactly 1, 2, 4, 8, 15, 15. -/
theorem c2_backoff_sequence_witness :
    run_forever_sleeps
      [fullCourseEos, fullCourseEos, fullCourseEos, fullCourseEos, fullCourseEos,
        fullCourseEos] 1 = [1, 2, 4, 8, 15, 15] := by
  have h := c2_backoff_sequence
    [fullCourseEos, fullCourseEos, fullCourseEos, fullCourseEos, fullCourseEos,
      fullCourseEos] (by decide)
  exact h.trans (by decide)

/-- Claim C3: `_run_once` never returns normally; when it reaches the
Streaming phase it raises `"stopped"` if the stop event is set, else the
recorded cause, else `"exited without explicit reason"`. -/
theorem c3_run_once_always_raises (cfg : RunConfig) :
    (∀ u : Unit, run_once cfg ≠ Except.ok u) ∧
    (reaches_streaming cfg = true → cfg.stop_set = true →
      run_once cfg = Except.error "stopped") ∧
    (reaches_streaming cfg = true → cfg.stop_set = false →
      run_once cfg =
        Except.error ((record_causes none cfg.causes).getD "exited without explicit reason")) := by
  refine ⟨?_, ?_, ?_⟩
  · intro u h
    obtain ⟨r, hr⟩ := run_once_isError cfg
    rw [hr] at h
    exact Except.noConfusion h
  · intro hrs hstop
    have h1 : cfg.appsink_found = true := by
      simpa using (Bool.and_eq_true_iff.mp (by simpa [reaches_streaming] using hrs)).1
    have h2 : cfg.play_ok = true := by
      simpa using (Bool.and_eq_true_iff.mp (by simpa [reaches_streaming] using hrs)).2
    simp [run_once, h1, h2, hstop]
  · intro hrs hstop
    have h1 : cfg.appsink_found = true := by
      simpa using (Bool.and_eq_true_iff.mp (by simpa [reaches_streaming] using hrs)).1
    have h2 : cfg.play_ok = true := by
      simpa using (Bool.and_eq_true_iff.mp (by simpa [reaches_streaming] using hrs)).2
    simp only [run_once, h1, h2, hstop]
    cases record_causes none cfg.causes <;> simp

/-- Witness for C3 at a concrete attempt in which a pipeline error fired
first and a stall fired second: the attempt raises the first cause. -/
theorem c3_run_once_always_raises_witness :
    (∀ u : Unit,
      run_once ⟨true, true, ["gstreamer error", "audio stalled for 10.0s"], false⟩ ≠
        Except.ok u) ∧
    run_once ⟨true, true, ["gstreamer error", "audio stalled for 10.0s"], false⟩ =
      Except.error "gstreamer error" :=
  ⟨(c3_run_once_always_raises _).1,
    ((c3_run_once_always_raises
      ⟨true, true, ["gstreamer error", "audio stalled for 10.0s"], false⟩).2.2 rfl rfl).trans
      rfl⟩

/-- Claim C4: the Variant B handler emits an RT message if and only if the
event carries a non-empty title differing from the cached one, emits a PS
message if and only if it carries a non-empty organization differing from
the cached one, and re-delivering the same event to the resulting state
emits nothing (emit-on-change only). -/
theorem c4_variant_b_emit_on_change (st : TagState) (ev : TagEvent) :
    ((∃ x, CtlMsg.RT x ∈ (on_message_tag st ev).2) ↔
      (∃ t, ev.title = some t ∧ t ≠ [] ∧ st.last_title ≠ some t)) ∧
    ((∃ x, CtlMsg.PS x ∈ (on_message_tag st ev).2) ↔
      (∃ o, ev.org = some o ∧ o ≠ [] ∧ st.last_org ≠ some o)) ∧
    on_message_tag (on_message_tag st ev).1 ev = ((on_message_tag st ev).1, []) := by
  obtain ⟨title?, org?⟩ := ev
  obtain ⟨lt, lo⟩ := st
  cases title? with
  | none =>
    cases org? with
    | none => simp [on_message_tag]
    | some o =>
      by_cases ho : o ≠ [] ∧ lo ≠ some o
      · simp [on_message_tag, ho]
      · simp only [on_message_tag, if_neg ho]
        simp only [not_and_or, not_not] at ho
        rcases ho with ho | ho <;> simp [ho]
  | some t =>
    by_cases ht : t ≠ [] ∧ lt ≠ some t
    · cases org? with
      | none => simp [on_message_tag, ht]
      | some o =>
        by_cases ho : o ≠ [] ∧ lo ≠ some o
        · simp [on_message_tag, ht, ho]
        · simp only [on_message_tag, if_pos ht, if_neg ho]
          simp only [not_and_or, not_not] at ho
          rcases ho with ho | ho <;> simp [ho, ht]
    · have ht' := ht
      simp only [not_and_or, not_not] at ht'
      cases org? with
      | none =>
        simp only [on_message_tag, if_neg ht]
        rcases ht' with ht' | ht' <;> simp [ht']
      | some o =>
        by_cases ho : o ≠ [] ∧ lo ≠ some o
        · simp only [on_message_tag, if_neg ht, if_pos ho]
          rcases ht' with ht' | ht' <;> simp [ht', ho]
        · simp only [on_message_tag, if_neg ht, if_neg ho]
          simp only [not_and_or, not_not] at ho
          rcases ht' with ht' | ht' <;> rcases ho with ho | ho <;> simp [ht', ho]

/-- Claim C5: on the spec's synthetic ICY stream (metaint = 100, metadata
blocks encoding StreamTitle='Song A';), one frame emits exactly one RT
update with text "Song A", the extractor recovers the quoted title from
the block, and running on to a later identical block produces no further
update. -/
theorem c5_icy_synthetic_stream :
    extractStreamTitle metaBlockA = some songATitle ∧
    (icy_loop 1 100 icyStreamA icyInit).emitted = [songATitle] ∧
    (icy_loop 10 100 icyStreamA icyInit).emitted = [songATitle] :=
  ⟨by decide, by decide, by decide⟩

/-- Claim C6: `safe_ps` always returns at most 8 characters, all of them
in `[0-9A-Za-z ]`, and on input every character of which is disallowed
(in particular the empty string) it returns the default PS string. -/
theorem c6_safe_ps_sanitizes (text : List Char) :
    (safe_ps text).length ≤ 8 ∧
    (∀ c ∈ safe_ps text, psAllowed c = true) ∧
    ((∀ c ∈ text, psAllowed c = false) → safe_ps text = DEFAULT_PS) := by
  refine ⟨?_, ?_, ?_⟩
  · unfold safe_ps
    split <;> simp [List.length_take]
  · intro c hc
    unfold safe_ps at hc
    by_cases ht : pyStrip (text.filter psAllowed) = []
    · rw [if_pos ht] at hc
      have : ∀ c ∈ DEFAULT_PS.take 8, psAllowed c = true := by decide
      exact this c hc
    · rw [if_neg ht] at hc
      have h1 : c ∈ pyStrip (text.filter psAllowed) := (List.take_sublist _ _).subset hc
      have h2 : c ∈ text.filter psAllowed := by
        have hs : c ∈ (pyStrip (text.filter psAllowed)) := h1
        unfold pyStrip at hs
        rw [List.mem_reverse] at hs
        have hs2 := (List.dropWhile_sublist _).subset hs
        rw [List.mem_reverse] at hs2
        exact (List.dropWhile_sublist _).subset hs2
      exact (List.mem_filter.mp h2).2
  · intro h
    have hfilter : text.filter psAllowed = [] := by
      rw [List.filter_eq_nil_iff]
      intro c hc
      simp [h c hc]
    simp only [safe_ps, hfilter]
    rfl

/-- Witness for C6 at an all-disallowed concrete input: the result is the
default PS string and is within the length bound. -/
theorem c6_safe_ps_sanitizes_witness :
    (safe_ps ("@!#".toList)).length ≤ 8 ∧ safe_ps ("@!#".toList) = DEFAULT_PS :=
  ⟨(c6_safe_ps_sanitizes ("@!#".toList)).1,
    (c6_safe_ps_sanitizes ("@!#".toList)).2.2 (by decide)⟩

/-- Claim C7: `safe_rt` always returns at most 64 characters, never the
empty string, and on empty or all-whitespace input it returns exactly a
single space. -/
theorem c7_safe_rt_sanitizes (text : List Char) :
    (safe_rt text).length ≤ 64 ∧
    safe_rt text ≠ [] ∧
    ((∀ c ∈ text, isPySpace c = true) → safe_rt text = [' ']) := by
  refine ⟨?_, ?_, ?_⟩
  · unfold safe_rt
    split <;> simp [List.length_take]
  · unfold safe_rt
    by_cases ht : pyStrip text = []
    · rw [if_pos ht]
      decide
    · rw [if_neg ht]
      rw [Ne, List.take_eq_nil_iff]
      push_neg
      exact ⟨by omega, ht⟩
  · intro h
    have hd : text.dropWhile isPySpace = [] := by
      rw [List.dropWhile_eq_nil_iff]
      exact h
    simp [safe_rt, pyStrip, hd]

/-- Witness for C7 at an all-whitespace concrete input: the result is a
single space, hence nonempty and within the length bound. -/
theorem c7_safe_rt_sanitizes_witness :
    (safe_rt ("  ".toList)).length ≤ 64 ∧ safe_rt ("  ".toList) = [' '] :=
  ⟨(c7_safe_rt_sanitizes ("  ".toList)).1,
    (c7_safe_rt_sanitizes ("  ".toList)).2.2 (by decide)⟩

/-- Claim C8: `ensure_fifo` leaves exactly one pipe node at the path from
every initial state (absent, pipe, or non-pipe node), is idempotent, and
replaces a pre-existing non-pipe node with a pipe. -/
theorem c8_ensure_fifo_idempotent (s : PathState) :
    ensure_fifo s = PathState.fifo ∧
    ensure_fifo (ensure_fifo s) = ensure_fifo s ∧
    ensure_fifo PathState.other = PathState.fifo := by
  cases s <;> exact ⟨rfl, rfl, rfl⟩

/-- Claim C9: `_ctl_send` returns normally for every line and every write
outcome — including an `OSError` from the underlying write, which is only
logged — and leaves the descriptor, the recorded RestartCause and the
stop flag unchanged. -/
theorem c9_ctl_send_never_fatal (st : CtlState) (line : List Char) (outcome : WriteOutcome) :
    ∃ st', ctl_send st line outcome = Except.ok st' ∧
      st'.ctl_fd = st.ctl_fd ∧
      st'.restart_reason = st.restart_reason ∧
      st'.stop_set = st.stop_set := by
  unfold ctl_send
  cases h : st.ctl_fd with
  | none => exact ⟨st, rfl, h, rfl, rfl⟩
  | some fd => cases outcome <;> exact ⟨_, rfl, rfl, rfl, rfl⟩

/-- Claim C10: with no open control descriptor (`ctl_fd = None`),
`_ctl_send` is a silent no-op — it returns normally with the state
entirely unchanged, writing and raising nothing. -/
theorem c10_ctl_send_noop_without_fd (st : CtlState) (line : List Char)
    (outcome : WriteOutcome) (h : st.ctl_fd = none) :
    ctl_send st line outcome = Except.ok st := by
  unfold ctl_send
  rw [h]

/-- Witness for C10 at a concrete closed-descriptor state and a failing
write outcome: the send is a no-op. -/
theorem c10_ctl_send_noop_without_fd_witness :
    ctl_send ⟨none, some "gstreamer eos", false, [], []⟩ ("PS DanceUK".toList)
        WriteOutcome.osError =
      Except.ok ⟨none, some "gstreamer eos", false, [], []⟩ :=
  c10_ctl_send_noop_without_fd _ _ _ rfl
